import Mathlib

/-!
Verification development for the MCP adapter registry (Python source under
src/servers/).  Each adapter builds an outgoing HTTP request (a Request
Descriptor: method, URL, query parameters, JSON body) from typed parameters
and reshapes upstream JSON responses.  We shallowly embed the request
builders and response shapers of the adapters the claims refer to
(todoist, airtable, mailchimp, claude, abstract-api, clickup) and prove the
claimed properties about them.

JSON numbers are modelled as exact rationals; on every value appearing in
the claims the Python float arithmetic is exact, so the models agree.
-/

/-- JSON values as produced/consumed by the adapters. -/
inductive JVal where
  | str (s : String)
  | num (q : ℚ)
  | bool (b : Bool)
  | list (xs : List JVal)
  | obj (fields : List (String × JVal))

/-- A Python dict with string keys, modelled as an ordered association list:
insertion order is preserved and assignment to an existing key replaces its
value in place. -/
abbrev Dict := List (String × JVal)

/-- Python dict assignment d[k] = v: replace the binding in place if the key
is present (builders below never create duplicate keys), otherwise append. -/
def dset : Dict → String → JVal → Dict
  | [], k, v => [(k, v)]
  | (k1, v1) :: rest, k, v =>
      if k1 = k then (k, v) :: rest else (k1, v1) :: dset rest k v

/-- Python dict lookup d.get(k): first binding with the given key. -/
def dget : Dict → String → Option JVal
  | [], _ => none
  | (k1, v1) :: rest, k => if k1 = k then some v1 else dget rest k

/-- The keys of a dict, in order. -/
def dkeys (d : Dict) : List String := d.map Prod.fst

/-- Python `k in d`. -/
def hasKey (d : Dict) (k : String) : Prop := k ∈ dkeys d

instance (d : Dict) (k : String) : Decidable (hasKey d k) := by
  unfold hasKey; infer_instance

/-- Python truthiness of an optional string: `if s:` is taken iff the value
is present and non-empty. -/
def strTruthy : Option String → Bool
  | some s => s ≠ ""
  | none => false

/-- Python truthiness of an optional int: `if n:` is taken iff the value is
present and non-zero. -/
def intTruthy : Option Int → Bool
  | some n => n ≠ 0
  | none => false

/-- Python truthiness of an optional list: `if xs:` is taken iff the value
is present and non-empty. -/
def listTruthy {α : Type} : Option (List α) → Bool
  | some xs => !xs.isEmpty
  | none => false

/-- `if o: d[k] = o` for an optional string parameter. -/
def setIfStr (d : Dict) (k : String) (o : Option String) : Dict :=
  match o with
  | some s => if s = "" then d else dset d k (.str s)
  | none => d

/-- `if o: d[k] = o` for an optional int parameter. -/
def setIfInt (d : Dict) (k : String) (o : Option Int) : Dict :=
  match o with
  | some n => if n = 0 then d else dset d k (.num n)
  | none => d

/-- `if o: d[k] = o` for an optional list-of-strings parameter. -/
def setIfStrList (d : Dict) (k : String) (o : Option (List String)) : Dict :=
  match o with
  | some xs => if xs.isEmpty then d else dset d k (.list (xs.map .str))
  | none => d

section DictLemmas

theorem mem_dkeys_dset (d : Dict) (k : String) (v : JVal) (k' : String) :
    k' ∈ dkeys (dset d k v) ↔ k' ∈ dkeys d ∨ k' = k := by
  induction d with
  | nil => simp [dset, dkeys]
  | cons p rest ih =>
      obtain ⟨k1, v1⟩ := p
      by_cases h : k1 = k
      · subst h
        simp [dset, dkeys]
        tauto
      · simp [dset, h, dkeys] at ih ⊢
        tauto

theorem dget_dset_self (d : Dict) (k : String) (v : JVal) :
    dget (dset d k v) k = some v := by
  induction d with
  | nil => simp [dset, dget]
  | cons p rest ih =>
      obtain ⟨k1, v1⟩ := p
      by_cases h : k1 = k
      · subst h; simp [dset, dget]
      · simp [dset, dget, h, ih]

theorem dget_dset_ne (d : Dict) (k : String) (v : JVal) (k' : String)
    (h : k ≠ k') : dget (dset d k v) k' = dget d k' := by
  induction d with
  | nil => simp [dset, dget, h]
  | cons p rest ih =>
      obtain ⟨k1, v1⟩ := p
      by_cases h1 : k1 = k
      · subst h1; simp [dset, dget, h]
      · simp [dset, dget, h1, ih]

theorem count_dkeys_dset_ne (d : Dict) (k : String) (v : JVal) (k' : String)
    (h : k ≠ k') :
    (dkeys (dset d k v)).count k' = (dkeys d).count k' := by
  induction d with
  | nil => simp [dset, dkeys, List.count_cons, h]
  | cons p rest ih =>
      obtain ⟨k1, v1⟩ := p
      by_cases h1 : k1 = k
      · subst h1
        simp [dset, dkeys, List.count_cons, h]
      · simp [dset, dkeys, h1, List.count_cons] at ih ⊢
        omega

theorem mem_dkeys_setIfStr (d : Dict) (k : String) (o : Option String)
    (k' : String) :
    k' ∈ dkeys (setIfStr d k o) ↔ k' ∈ dkeys d ∨ (k' = k ∧ strTruthy o) := by
  cases o with
  | none => simp [setIfStr, strTruthy]
  | some s =>
      by_cases hs : s = "" <;>
        simp [setIfStr, strTruthy, hs, mem_dkeys_dset]

theorem mem_dkeys_setIfInt (d : Dict) (k : String) (o : Option Int)
    (k' : String) :
    k' ∈ dkeys (setIfInt d k o) ↔ k' ∈ dkeys d ∨ (k' = k ∧ intTruthy o) := by
  cases o with
  | none => simp [setIfInt, intTruthy]
  | some n =>
      by_cases hn : n = 0 <;>
        simp [setIfInt, intTruthy, hn, mem_dkeys_dset]

theorem mem_dkeys_setIfStrList (d : Dict) (k : String)
    (o : Option (List String)) (k' : String) :
    k' ∈ dkeys (setIfStrList d k o) ↔
      k' ∈ dkeys d ∨ (k' = k ∧ listTruthy o) := by
  cases o with
  | none => simp [setIfStrList, listTruthy]
  | some xs =>
      by_cases hx : xs.isEmpty <;>
        simp [setIfStrList, listTruthy, hx, mem_dkeys_dset]

theorem dget_setIfStr_ne (d : Dict) (k : String) (o : Option String)
    (k' : String) (h : k ≠ k') :
    dget (setIfStr d k o) k' = dget d k' := by
  cases o with
  | none => rfl
  | some s =>
      by_cases hs : s = "" <;> simp [setIfStr, hs, dget_dset_ne _ _ _ _ h]

theorem dget_setIfInt_ne (d : Dict) (k : String) (o : Option Int)
    (k' : String) (h : k ≠ k') :
    dget (setIfInt d k o) k' = dget d k' := by
  cases o with
  | none => rfl
  | some n =>
      by_cases hn : n = 0 <;> simp [setIfInt, hn, dget_dset_ne _ _ _ _ h]

theorem count_dkeys_setIfStr_ne (d : Dict) (k : String) (o : Option String)
    (k' : String) (h : k ≠ k') :
    (dkeys (setIfStr d k o)).count k' = (dkeys d).count k' := by
  cases o with
  | none => rfl
  | some s =>
      by_cases hs : s = "" <;>
        simp [setIfStr, hs, count_dkeys_dset_ne _ _ _ _ h]

theorem count_dkeys_setIfInt_ne (d : Dict) (k : String) (o : Option Int)
    (k' : String) (h : k ≠ k') :
    (dkeys (setIfInt d k o)).count k' = (dkeys d).count k' := by
  cases o with
  | none => rfl
  | some n =>
      by_cases hn : n = 0 <;>
        simp [setIfInt, hn, count_dkeys_dset_ne _ _ _ _ h]

end DictLemmas

/-! ## Request descriptors -/

/-- HTTP verbs used by the adapters. -/
inductive Method where
  | get
  | post
  | put
  | patch
  | delete
  deriving DecidableEq

/-- The fully assembled outgoing request of one tool invocation: HTTP verb,
target URL, query parameters, and optional JSON body. -/
structure RequestDescriptor where
  method : Method
  url : String
  params : Dict
  body : Option JVal

/-! ## Todoist adapter (src/servers/todoist/server.py) -/

/-- JSON payload assembled by todoist update_task: starts from
`payload = {"due_lang": due_lang}` and then conditionally assigns each
optional parameter under a Python truthiness test (`if content: ...` etc.),
in source order. -/
def todoist_update_task_payload (content description : Option String)
    (labels : Option (List String)) (priority : Option Int)
    (due_string due_date due_datetime : Option String) (due_lang : String)
    (assignee_id : Option String) : Dict :=
  let payload : Dict := [("due_lang", JVal.str due_lang)]
  let payload := setIfStr payload "content" content
  let payload := setIfStr payload "description" description
  let payload := setIfStrList payload "labels" labels
  let payload := setIfInt payload "priority" priority
  let payload := setIfStr payload "due_string" due_string
  let payload := setIfStr payload "due_date" due_date
  let payload := setIfStr payload "due_datetime" due_datetime
  let payload := setIfStr payload "assignee_id" assignee_id
  payload

/-- Request issued by todoist update_task: POST to BASE_URL/tasks/task_id
with the payload above as JSON body. -/
def todoist_update_task (task_id : String) (content description : Option String)
    (labels : Option (List String)) (priority : Option Int)
    (due_string due_date due_datetime : Option String) (due_lang : String)
    (assignee_id : Option String) : RequestDescriptor :=
  { method := Method.post,
    url := "https://api.todoist.com/rest/v2/tasks/" ++ task_id,
    params := [],
    body := some (JVal.obj (todoist_update_task_payload content description
      labels priority due_string due_date due_datetime due_lang assignee_id)) }

/-! ## Airtable adapter (src/servers/airtable/server.py) -/

def airtableBaseURL : String := "https://api.airtable.com/v0"

/-- One entry of the `sort` argument: a Python dict with a mandatory
"field" entry and an optional "direction" entry (read with default "asc"). -/
structure SortSpec where
  field : String
  direction : Option String

def sortFieldKey (i : Nat) : String := "sort[" ++ (toString i ++ "][field]")

def sortDirKey (i : Nat) : String := "sort[" ++ (toString i ++ "][direction]")

/-- The list_records loop `for field in fields: params["fields[]"] = field`:
every iteration assigns the same key. -/
def fieldsLoop : Dict → List String → Dict
  | d, [] => d
  | d, f :: fs => fieldsLoop (dset d "fields[]" (JVal.str f)) fs

/-- The list_records loop `for i, sort_item in enumerate(sort)` assigning
`params["sort[i][field]"]` and `params["sort[i][direction]"]` (the latter
read with `.get("direction", "asc")`). -/
def sortLoop : Dict → List SortSpec → Nat → Dict
  | d, [], _ => d
  | d, s :: rest, i =>
      sortLoop (dset (dset d (sortFieldKey i) (JVal.str s.field))
        (sortDirKey i) (JVal.str (s.direction.getD "asc"))) rest (i + 1)

/-- Query parameters assembled by airtable list_records, in source order:
fields loop, filterByFormula, maxRecords, pageSize, view, offset, sort loop;
each guarded by a Python truthiness test on the optional argument. -/
def airtable_list_records_params (fields : Option (List String))
    (filter_by_formula : Option String) (max_records page_size : Option Int)
    (sort : Option (List SortSpec)) (view offset : Option String) : Dict :=
  let params : Dict := []
  let params := if listTruthy fields then fieldsLoop params (fields.getD []) else params
  let params := setIfStr params "filterByFormula" filter_by_formula
  let params := setIfInt params "maxRecords" max_records
  let params := setIfInt params "pageSize" page_size
  let params := setIfStr params "view" view
  let params := setIfStr params "offset" offset
  let params := if listTruthy sort then sortLoop params (sort.getD []) 0 else params
  params

/-- Request issued by airtable list_records: GET on
BASE_URL/base_id/table_id_or_name with the query parameters above. -/
def airtable_list_records (base_id table_id_or_name : String)
    (fields : Option (List String)) (filter_by_formula : Option String)
    (max_records page_size : Option Int) (sort : Option (List SortSpec))
    (view offset : Option String) : RequestDescriptor :=
  { method := Method.get,
    url := airtableBaseURL ++ "/" ++ base_id ++ "/" ++ table_id_or_name,
    params := airtable_list_records_params fields filter_by_formula
      max_records page_size sort view offset,
    body := none }

/-- airtable search_records delegates to list_records with
filter_by_formula := formula and page_size, view, offset left at their
None defaults. -/
def airtable_search_records (base_id table_id_or_name formula : String)
    (fields : Option (List String)) (sort : Option (List SortSpec))
    (max_records : Option Int) : RequestDescriptor :=
  airtable_list_records base_id table_id_or_name fields (some formula)
    max_records none sort none none

/-- Request issued by airtable update_record: PUT when replace_all is true,
PATCH otherwise (replace_all defaults to False in the source), with JSON
body {"fields": fields}. -/
def airtable_update_record (base_id table_id_or_name record_id : String)
    (fields : Dict) (replace_all : Bool) : RequestDescriptor :=
  { method := if replace_all then Method.put else Method.patch,
    url := airtableBaseURL ++ "/" ++ base_id ++ "/" ++ table_id_or_name
      ++ "/" ++ record_id,
    params := [],
    body := some (JVal.obj [("fields", JVal.obj fields)]) }

/-- bulk_create_records list comprehension:
`{"fields": r} if "fields" not in r else r`. -/
def airtable_format_record (r : Dict) : Dict :=
  if hasKey r "fields" then r else [("fields", JVal.obj r)]

/-- Request issued by airtable bulk_create_records: POST with JSON body
{"records": formatted_records[:10]}. -/
def airtable_bulk_create_records (base_id table_id_or_name : String)
    (records : List Dict) : RequestDescriptor :=
  { method := Method.post,
    url := airtableBaseURL ++ "/" ++ base_id ++ "/" ++ table_id_or_name,
    params := [],
    body := some (JVal.obj [("records",
      JVal.list (((records.map airtable_format_record).take 10).map JVal.obj))]) }

/-- Request issued by airtable bulk_update_records: PUT when replace_all is
true, PATCH otherwise, with JSON body {"records": records[:10]}. -/
def airtable_bulk_update_records (base_id table_id_or_name : String)
    (records : List Dict) (replace_all : Bool) : RequestDescriptor :=
  { method := if replace_all then Method.put else Method.patch,
    url := airtableBaseURL ++ "/" ++ base_id ++ "/" ++ table_id_or_name,
    params := [],
    body := some (JVal.obj [("records",
      JVal.list ((records.take 10).map JVal.obj))]) }

/-! ## Mailchimp adapter (src/servers/mailchimp/server.py) -/

/-- Python str.split with a one-character separator, on the character list
of the string: splits at every occurrence of the separator. -/
def splitOnChar (c : Char) : List Char → List (List Char)
  | [] => [[]]
  | a :: rest =>
      match splitOnChar c rest with
      | [] => [[a]]
      | h :: t => if a = c then [] :: h :: t else (a :: h) :: t

/-- mailchimp get_base_url: raises ValueError when the API key is unset,
empty, or contains no '-' (Python `"-" not in API_KEY`; for the
one-character separator this is character containment); otherwise the data
center is `API_KEY.split("-")[-1]` and the base URL is
https://dc.api.mailchimp.com/3.0. -/
def mailchimp_get_base_url (api_key : Option String) : Except String String :=
  let msg := "Invalid MAILCHIMP_API_KEY format. Expected format: key-dc (e.g., abc123-us1)"
  match api_key with
  | none => Except.error msg
  | some k =>
      if k = "" ∨ (k.data.contains '-') = false then Except.error msg
      else
        Except.ok ("https://" ++ ((splitOnChar '-' k.data).map String.mk).getLastD ""
          ++ ".api.mailchimp.com/3.0")

/-! ## Claude adapter (src/servers/claude/server.py) -/

/-- Python dict .get on a JSON value: a lookup when the value is an object
(the only case the upstream API produces), none otherwise. -/
def jget (v : JVal) (k : String) : Option JVal :=
  match v with
  | JVal.obj d => dget d k
  | _ => none

/-- The chat loop guard: `block.get("type") == "text"`. -/
def claude_block_is_text (b : JVal) : Bool :=
  match jget b "type" with
  | some (JVal.str t) => t = "text"
  | _ => false

/-- The chat loop body value: `block.get("text", "")` (a string in every
response the upstream API produces). -/
def claude_block_text (b : JVal) : String :=
  match jget b "text" with
  | some (JVal.str t) => t
  | _ => ""

/-- The chat extraction loop: `for block in ...: if block.get("type") ==
"text": text_content.append(block.get("text", ""))`. -/
def claude_collect_texts : List JVal → List String
  | [] => []
  | b :: rest =>
      if claude_block_is_text b then
        claude_block_text b :: claude_collect_texts rest
      else
        claude_collect_texts rest

/-- Response shaping of claude chat: iterate over `result.get("content",
[])` (a list in every response the upstream API produces) collecting the
text of text-typed blocks, then `"\n".join(text_content)`. -/
def claude_chat_shape (result : Dict) : String :=
  let content := match dget result "content" with
    | some (JVal.list xs) => xs
    | _ => []
  String.intercalate "\n" (claude_collect_texts content)

/-! ## Abstract API adapter (src/servers/abstract-api/server.py) -/

/-- Response shaping of convert_currency: when `"exchange_rates" in result
and target in result["exchange_rates"]` (the rates table is a JSON object
of numbers in every response the upstream API produces), set
`result["converted_amount"] = amount * rate` and `result["amount"] =
amount`; otherwise return the body unchanged. -/
def abstract_convert_currency_shape (result : Dict) (amount : ℚ)
    (target : String) : Dict :=
  match dget result "exchange_rates" with
  | some (JVal.obj rates) =>
      match dget rates target with
      | some (JVal.num rate) =>
          dset (dset result "converted_amount" (JVal.num (amount * rate)))
            "amount" (JVal.num amount)
      | _ => result
  | _ => result

/-- abstract-api get_timezone: params start as {"api_key": ...}; `if
location:` adds location; `elif latitude is not None and longitude is not
None:` adds both coordinates; else raises ValueError before any request. -/
def abstract_get_timezone (api_key : String) (location : Option String)
    (latitude longitude : Option ℚ) : Except String RequestDescriptor :=
  let params : Dict := [("api_key", JVal.str api_key)]
  if strTruthy location then
    Except.ok
      { method := Method.get,
        url := "https://timezone.abstractapi.com/v1/current_time/",
        params := dset params "location" (JVal.str (location.getD "")),
        body := none }
  else if latitude.isSome && longitude.isSome then
    Except.ok
      { method := Method.get,
        url := "https://timezone.abstractapi.com/v1/current_time/",
        params := dset (dset params "latitude" (JVal.num (latitude.getD 0)))
          "longitude" (JVal.num (longitude.getD 0)),
        body := none }
  else
    Except.error "Either location or latitude/longitude must be provided"

/-! ## ClickUp adapter (src/servers/clickup/server.py) -/

def clickupBaseURL : String := "https://api.clickup.com/api/v2"

/-- clickup list_lists: `if folder_id:` GET BASE_URL/folder/folder_id/list;
`elif space_id:` GET BASE_URL/space/space_id/list; else raises ValueError
before any request; the query carries `str(archived).lower()`. -/
def clickup_list_lists (folder_id space_id : Option String)
    (archived : Bool) : Except String RequestDescriptor :=
  let params : Dict := [("archived", JVal.str (if archived then "true" else "false"))]
  if strTruthy folder_id then
    Except.ok
      { method := Method.get,
        url := clickupBaseURL ++ "/folder/" ++ folder_id.getD "" ++ "/list",
        params := params, body := none }
  else if strTruthy space_id then
    Except.ok
      { method := Method.get,
        url := clickupBaseURL ++ "/space/" ++ space_id.getD "" ++ "/list",
        params := params, body := none }
  else
    Except.error "Either folder_id or space_id must be provided"

/-! ## Lemmas about the airtable parameter loops -/

theorem dkeys_dset_of_mem (d : Dict) (k : String) (v : JVal)
    (h : k ∈ dkeys d) : dkeys (dset d k v) = dkeys d := by
  induction d with
  | nil => simp [dkeys] at h
  | cons p rest ih =>
      obtain ⟨k1, v1⟩ := p
      by_cases h1 : k1 = k
      · subst h1; simp [dset, dkeys]
      · simp only [dkeys, List.map_cons, List.mem_cons] at h
        rcases h with h | h
        · exact absurd h.symm h1
        · simp only [dset, if_neg h1, dkeys, List.map_cons]
          rw [show List.map Prod.fst (dset rest k v) = dkeys (dset rest k v) from rfl,
            ih h]
          rfl

theorem mem_dkeys_fieldsLoop (d : Dict) (fs : List String) (k' : String) :
    k' ∈ dkeys (fieldsLoop d fs) ↔
      k' ∈ dkeys d ∨ (fs ≠ [] ∧ k' = "fields[]") := by
  induction fs generalizing d with
  | nil => simp [fieldsLoop]
  | cons f fs ih =>
      rw [fieldsLoop, ih, mem_dkeys_dset]
      constructor
      · rintro ((h | h) | ⟨-, h⟩) <;> tauto
      · rintro (h | ⟨-, h⟩) <;> tauto

theorem dget_fieldsLoop (d : Dict) (f : String) (fs : List String) :
    dget (fieldsLoop d (f :: fs)) "fields[]" =
      some (JVal.str ((f :: fs).getLastD "")) := by
  induction fs generalizing d f with
  | nil => simp [fieldsLoop, dget_dset_self]
  | cons f2 fs2 ih =>
      rw [fieldsLoop, ih]
      simp [List.getLastD_cons]

theorem dkeys_fieldsLoop_of_mem (d : Dict) (fs : List String)
    (h : "fields[]" ∈ dkeys d) : dkeys (fieldsLoop d fs) = dkeys d := by
  induction fs generalizing d with
  | nil => rfl
  | cons f fs ih =>
      rw [fieldsLoop, ih _ ((mem_dkeys_dset _ _ _ _).mpr (Or.inr rfl)),
        dkeys_dset_of_mem _ _ _ h]

theorem dkeys_fieldsLoop_nil_start (f : String) (fs : List String) :
    dkeys (fieldsLoop [] (f :: fs)) = ["fields[]"] := by
  rw [fieldsLoop]
  rw [dkeys_fieldsLoop_of_mem]
  · simp [dset, dkeys]
  · simp [dset, dkeys]

/-- First-character test: a string starting with "sort[" never coincides
with a key whose first character is not 's'. -/
theorem sortPrefix_ne (r : String) (k : String)
    (h : k.data.head? ≠ some 's') : "sort[" ++ r ≠ k := by
  intro he
  apply h
  rw [← he, String.data_append]
  simp

theorem mem_dkeys_sortLoop (d : Dict) (items : List SortSpec) (i : Nat)
    (k' : String) (h : ∀ r : String, "sort[" ++ r ≠ k') :
    k' ∈ dkeys (sortLoop d items i) ↔ k' ∈ dkeys d := by
  induction items generalizing d i with
  | nil => simp [sortLoop]
  | cons s rest ih =>
      rw [sortLoop, ih, mem_dkeys_dset, mem_dkeys_dset]
      have hf := h (toString i ++ "][field]")
      have hd := h (toString i ++ "][direction]")
      unfold sortFieldKey sortDirKey
      simp [Ne.symm hf, Ne.symm hd]

theorem dget_sortLoop (d : Dict) (items : List SortSpec) (i : Nat)
    (k' : String) (h : ∀ r : String, "sort[" ++ r ≠ k') :
    dget (sortLoop d items i) k' = dget d k' := by
  induction items generalizing d i with
  | nil => simp [sortLoop]
  | cons s rest ih =>
      rw [sortLoop, ih]
      unfold sortFieldKey sortDirKey
      rw [dget_dset_ne _ _ _ _ (h (toString i ++ "][direction]")),
        dget_dset_ne _ _ _ _ (h (toString i ++ "][field]"))]

theorem count_dkeys_sortLoop (d : Dict) (items : List SortSpec) (i : Nat)
    (k' : String) (h : ∀ r : String, "sort[" ++ r ≠ k') :
    (dkeys (sortLoop d items i)).count k' = (dkeys d).count k' := by
  induction items generalizing d i with
  | nil => simp [sortLoop]
  | cons s rest ih =>
      rw [sortLoop, ih]
      unfold sortFieldKey sortDirKey
      rw [count_dkeys_dset_ne _ _ _ _ (h (toString i ++ "][direction]")),
        count_dkeys_dset_ne _ _ _ _ (h (toString i ++ "][field]"))]

/-- The base of the list_records parameter chain: the conditional fields
loop contributes exactly the key "fields[]", and only when the fields
argument is truthy. -/
theorem mem_dkeys_fields_base (fields : Option (List String)) (k' : String) :
    k' ∈ dkeys (if listTruthy fields then fieldsLoop [] (fields.getD []) else []) ↔
      (k' = "fields[]" ∧ listTruthy fields) := by
  cases fields with
  | none => simp [listTruthy, dkeys]
  | some xs =>
      cases xs with
      | nil => simp [listTruthy, dkeys]
      | cons x xs =>
          simp only [listTruthy, List.isEmpty_cons, Bool.not_false, if_true,
            Option.getD_some, mem_dkeys_fieldsLoop]
          simp [dkeys]

/-- Which keys the airtable list_records query can contain, for a key that
is not of the sort-loop shape: exactly the keys whose guarding optional
argument is truthy. -/
theorem mem_dkeys_list_records_params (k' : String)
    (fields : Option (List String)) (filter_by_formula : Option String)
    (max_records page_size : Option Int) (sort : Option (List SortSpec))
    (view offset : Option String)
    (hk : ∀ r : String, "sort[" ++ r ≠ k') :
    k' ∈ dkeys (airtable_list_records_params fields filter_by_formula
        max_records page_size sort view offset) ↔
      (k' = "fields[]" ∧ listTruthy fields) ∨
      (k' = "filterByFormula" ∧ strTruthy filter_by_formula) ∨
      (k' = "maxRecords" ∧ intTruthy max_records) ∨
      (k' = "pageSize" ∧ intTruthy page_size) ∨
      (k' = "view" ∧ strTruthy view) ∨
      (k' = "offset" ∧ strTruthy offset) := by
  simp only [airtable_list_records_params]
  by_cases hs : listTruthy sort = true
  · rw [if_pos hs, mem_dkeys_sortLoop _ _ _ _ hk]
    simp only [mem_dkeys_setIfStr, mem_dkeys_setIfInt, mem_dkeys_fields_base]
    tauto
  · rw [if_neg hs]
    simp only [mem_dkeys_setIfStr, mem_dkeys_setIfInt, mem_dkeys_fields_base]
    tauto

/-! ## Claim theorems -/

/-- Claim C9: airtable search_records is a pure delegation to list_records:
for every argument tuple it returns exactly list_records with
filter_by_formula := formula, the shared parameters forwarded unchanged,
and page_size, view, offset left unsupplied. -/
theorem search_records_delegates_to_list_records :
    ∀ (base_id table_id_or_name formula : String)
      (fields : Option (List String)) (sort : Option (List SortSpec))
      (max_records : Option Int),
      airtable_search_records base_id table_id_or_name formula fields sort
          max_records =
        airtable_list_records base_id table_id_or_name fields (some formula)
          max_records none sort none none := by
  intro base_id table_id_or_name formula fields sort max_records
  rfl

/-- Claim C5: for airtable update_record and bulk_update_records,
replace_all = false issues the request with the PATCH verb and
replace_all = true with the PUT verb, for every base, table, record id and
payload, so the verb is determined solely by the flag. -/
theorem replace_all_selects_http_verb :
    ∀ (base_id table_id_or_name record_id : String) (fields : Dict)
      (records : List Dict),
      (airtable_update_record base_id table_id_or_name record_id fields
        false).method = Method.patch ∧
      (airtable_update_record base_id table_id_or_name record_id fields
        true).method = Method.put ∧
      (airtable_bulk_update_records base_id table_id_or_name records
        false).method = Method.patch ∧
      (airtable_bulk_update_records base_id table_id_or_name records
        true).method = Method.put := by
  intro base_id table_id_or_name record_id fields records
  exact ⟨rfl, rfl, rfl, rfl⟩

/-- Claim C8: todoist update_task coerces falsy-but-meaningful values to
absent through Python truthiness tests: supplying priority = 0 (or
content = "", or labels = []) builds exactly the payload built when that
parameter is not supplied at all. -/
theorem falsy_values_coerced_to_absent :
    ∀ (content description : Option String) (labels : Option (List String))
      (priority : Option Int) (due_string due_date due_datetime : Option String)
      (due_lang : String) (assignee_id : Option String),
      todoist_update_task_payload content description labels (some 0)
          due_string due_date due_datetime due_lang assignee_id =
        todoist_update_task_payload content description labels none
          due_string due_date due_datetime due_lang assignee_id ∧
      todoist_update_task_payload (some "") description labels priority
          due_string due_date due_datetime due_lang assignee_id =
        todoist_update_task_payload none description labels priority
          due_string due_date due_datetime due_lang assignee_id ∧
      todoist_update_task_payload content description (some []) priority
          due_string due_date due_datetime due_lang assignee_id =
        todoist_update_task_payload content description none priority
          due_string due_date due_datetime due_lang assignee_id := by
  intro content description labels priority due_string due_date due_datetime
    due_lang assignee_id
  refine ⟨?_, ?_, ?_⟩ <;>
    simp [todoist_update_task_payload, setIfStr, setIfInt, setIfStrList]

/-- Claim C2: airtable bulk_create_records and bulk_update_records place
exactly the first 10 (formatted) records in the outgoing JSON body: with
more than 10 supplied, exactly 10 are sent and no error is raised; with at
most 10 supplied, all are sent. -/
theorem bulk_records_truncate_to_ten :
    ∀ (base_id table_id_or_name : String) (records : List Dict)
      (replace_all : Bool),
      (airtable_bulk_create_records base_id table_id_or_name records).body =
        some (JVal.obj [("records", JVal.list
          (((records.map airtable_format_record).take 10).map JVal.obj))]) ∧
      (airtable_bulk_update_records base_id table_id_or_name records
          replace_all).body =
        some (JVal.obj [("records", JVal.list
          ((records.take 10).map JVal.obj))]) ∧
      (10 < records.length →
        ((records.map airtable_format_record).take 10).length = 10 ∧
        (records.take 10).length = 10 ∧
        (records.map airtable_format_record).take 10 =
          (records.take 10).map airtable_format_record) ∧
      (records.length ≤ 10 →
        (records.map airtable_format_record).take 10 =
          records.map airtable_format_record ∧
        records.take 10 = records) := by
  intro base_id table_id_or_name records replace_all
  refine ⟨rfl, rfl, ?_, ?_⟩
  · intro hlen
    refine ⟨?_, ?_, ?_⟩
    · simp [List.length_take]
      omega
    · simp [List.length_take]
      omega
    · rw [List.map_take]
  · intro hlen
    constructor
    · rw [List.take_of_length_le]
      simpa using hlen
    · exact List.take_of_length_le hlen

/-- Witness for C2 at concrete inputs: with 11 records exactly 10 are kept,
with 2 records both are kept. -/
theorem bulk_records_truncate_to_ten_witness :
    (((List.replicate 11 ([] : Dict)).map airtable_format_record).take 10).length = 10 ∧
    (List.replicate 2 ([] : Dict)).take 10 = List.replicate 2 ([] : Dict) :=
  ⟨((bulk_records_truncate_to_ten "app1" "tbl" (List.replicate 11 []) false).2.2.1
      (by simp)).1,
   ((bulk_records_truncate_to_ten "app1" "tbl" (List.replicate 2 []) false).2.2.2
      (by simp)).2⟩

/-- Claim C3: mailchimp get_base_url maps the credential "abc123-us5" to the
base URL with data center "us5"; for a credential with no '-' (or an unset
credential) it returns the descriptive ConfigurationError instead of a
request target. -/
theorem mailchimp_data_center_base_url :
    mailchimp_get_base_url (some "abc123-us5") =
      Except.ok "https://us5.api.mailchimp.com/3.0" ∧
    (∀ k : String, k.data.contains '-' = false →
      mailchimp_get_base_url (some k) = Except.error
        "Invalid MAILCHIMP_API_KEY format. Expected format: key-dc (e.g., abc123-us1)") ∧
    mailchimp_get_base_url none = Except.error
      "Invalid MAILCHIMP_API_KEY format. Expected format: key-dc (e.g., abc123-us1)" := by
  refine ⟨rfl, ?_, rfl⟩
  intro k hk
  have h2 : '-' ∉ k.data := by simpa using hk
  simp [mailchimp_get_base_url, h2]

/-- Witness for C3 at the concrete delimiterless credential "abc123". -/
theorem mailchimp_data_center_base_url_witness :
    mailchimp_get_base_url (some "abc123") = Except.error
      "Invalid MAILCHIMP_API_KEY format. Expected format: key-dc (e.g., abc123-us1)" :=
  mailchimp_data_center_base_url.2.1 "abc123" rfl

/-- Helper for C6: the chat extraction loop collects exactly the text of
the text-typed blocks, in order. -/
theorem claude_collect_texts_eq_filter_map (bs : List JVal) :
    claude_collect_texts bs =
      (bs.filter claude_block_is_text).map claude_block_text := by
  induction bs with
  | nil => rfl
  | cons b rest ih =>
      by_cases hb : claude_block_is_text b <;>
        simp [claude_collect_texts, List.filter_cons, hb, ih]

/-- Claim C6: claude chat returns the text fields of all blocks whose type
is "text", in order, joined by single newlines, discarding non-text blocks;
on the content list [text "A", image, text "B"] it returns exactly "A\nB". -/
theorem chat_returns_joined_text_blocks :
    claude_chat_shape [("content", JVal.list
      [JVal.obj [("type", JVal.str "text"), ("text", JVal.str "A")],
       JVal.obj [("type", JVal.str "image"),
         ("source", JVal.obj [("url", JVal.str "https://img.example")])],
       JVal.obj [("type", JVal.str "text"), ("text", JVal.str "B")]])] =
      "A\nB" ∧
    ∀ (result : Dict) (blocks : List JVal),
      dget result "content" = some (JVal.list blocks) →
      claude_chat_shape result =
        String.intercalate "\n"
          ((blocks.filter claude_block_is_text).map claude_block_text) := by
  constructor
  · rfl
  · intro result blocks h
    simp [claude_chat_shape, h, claude_collect_texts_eq_filter_map]

/-- Witness for C6 at a concrete one-block response. -/
theorem chat_returns_joined_text_blocks_witness :
    claude_chat_shape
        [("content", JVal.list [JVal.obj [("type", JVal.str "text"),
          ("text", JVal.str "hi")]])] =
      String.intercalate "\n"
        (([JVal.obj [("type", JVal.str "text"), ("text", JVal.str "hi")]].filter
          claude_block_is_text).map claude_block_text) :=
  chat_returns_joined_text_blocks.2 _ _ rfl

/-- Claim C4: convert_currency attaches converted_amount = amount * rate and
amount when the target key is present in exchange_rates (100 USD at rate
0.9 gives 90); with no exchange_rates key, or with the target absent from
the rate table, the body is returned unchanged, so no converted_amount key
is added. -/
theorem convert_currency_attaches_converted_amount :
    (dget (abstract_convert_currency_shape
        [("exchange_rates", JVal.obj [("EUR", JVal.num (9/10))])] 100 "EUR")
        "converted_amount" = some (JVal.num 90) ∧
     dget (abstract_convert_currency_shape
        [("exchange_rates", JVal.obj [("EUR", JVal.num (9/10))])] 100 "EUR")
        "amount" = some (JVal.num 100)) ∧
    (∀ (result : Dict) (amount : ℚ) (target : String),
      dget result "exchange_rates" = none →
      abstract_convert_currency_shape result amount target = result) ∧
    (∀ (result : Dict) (rates : List (String × JVal)) (amount : ℚ)
      (target : String),
      dget result "exchange_rates" = some (JVal.obj rates) →
      dget rates target = none →
      abstract_convert_currency_shape result amount target = result) := by
  refine ⟨⟨?_, ?_⟩, ?_, ?_⟩
  · simp [abstract_convert_currency_shape, dget, dset]
    norm_num
  · simp [abstract_convert_currency_shape, dget, dset]
  · intro result amount target h
    simp [abstract_convert_currency_shape, h]
  · intro result rates amount target h1 h2
    simp [abstract_convert_currency_shape, h1, h2]

/-- Witness for C4: a body without exchange_rates, and a body whose rate
table lacks the target currency, both pass through unchanged. -/
theorem convert_currency_attaches_converted_amount_witness :
    abstract_convert_currency_shape [("base", JVal.str "USD")] 5 "EUR" =
      [("base", JVal.str "USD")] ∧
    abstract_convert_currency_shape
        [("exchange_rates", JVal.obj [("GBP", JVal.num 2)])] 5 "EUR" =
      [("exchange_rates", JVal.obj [("GBP", JVal.num 2)])] :=
  ⟨convert_currency_attaches_converted_amount.2.1 _ 5 "EUR" rfl,
   convert_currency_attaches_converted_amount.2.2 _ _ 5 "EUR" rfl rfl⟩

/-- Claim C7: abstract-api get_timezone with location unsupplied and not
both coordinates supplied, and clickup list_lists with neither folder_id
nor space_id supplied, return a ValidationError and no request descriptor,
so no HTTP request is issued on the error path. -/
theorem disjoint_required_params_validation :
    (∀ (api_key : String) (latitude longitude : Option ℚ),
      latitude = none ∨ longitude = none →
      abstract_get_timezone api_key none latitude longitude =
        Except.error "Either location or latitude/longitude must be provided") ∧
    (∀ archived : Bool,
      clickup_list_lists none none archived =
        Except.error "Either folder_id or space_id must be provided") := by
  constructor
  · intro api_key latitude longitude h
    rcases h with h | h <;> subst h <;>
      simp [abstract_get_timezone, strTruthy]
  · intro archived
    simp [clickup_list_lists, strTruthy]

/-- Witness for C7: concrete calls on the error paths. -/
theorem disjoint_required_params_validation_witness :
    abstract_get_timezone "key1" none none (some 7) =
      Except.error "Either location or latitude/longitude must be provided" ∧
    clickup_list_lists none none false =
      Except.error "Either folder_id or space_id must be provided" :=
  ⟨disjoint_required_params_validation.1 "key1" none (some 7) (Or.inl rfl),
   disjoint_required_params_validation.2 false⟩

/-- Membership in the keys of a one-entry dict. -/
theorem mem_dkeys_singleton (k k1 : String) (v : JVal) :
    k ∈ dkeys [(k1, v)] ↔ k = k1 := by
  simp [dkeys]

/-- Helper for C1: when sort is unsupplied, no key of the sort-loop shape
appears among the list_records query parameters. -/
theorem sortshape_key_not_in_list_records_params (r : String)
    (fields : Option (List String)) (filter_by_formula : Option String)
    (max_records page_size : Option Int) (view offset : Option String) :
    ¬ hasKey (airtable_list_records_params fields filter_by_formula
        max_records page_size none view offset) ("sort[" ++ r) := by
  simp only [hasKey, airtable_list_records_params]
  rw [if_neg (by decide : ¬ (listTruthy (none : Option (List SortSpec)) = true))]
  intro hmem
  simp only [mem_dkeys_setIfStr, mem_dkeys_setIfInt, mem_dkeys_fields_base]
    at hmem
  have hA := sortPrefix_ne r "fields[]" (by decide)
  have hB := sortPrefix_ne r "filterByFormula" (by decide)
  have hC := sortPrefix_ne r "maxRecords" (by decide)
  have hD := sortPrefix_ne r "pageSize" (by decide)
  have hE := sortPrefix_ne r "view" (by decide)
  have hF := sortPrefix_ne r "offset" (by decide)
  simp [hA, hB, hC, hD, hE, hF, Ne.symm hA, Ne.symm hB, Ne.symm hC,
    Ne.symm hD, Ne.symm hE, Ne.symm hF] at hmem

/-- Claim C1: optional parameters the caller does not supply are entirely
absent from the outgoing payload: for todoist update_task each unsupplied
optional key does not appear in the JSON payload, and for airtable
list_records each unsupplied optional argument contributes no query
parameter, whatever the other arguments are. -/
theorem unsupplied_optional_params_absent :
    (∀ (content description : Option String) (labels : Option (List String))
       (priority : Option Int) (due_string due_date due_datetime : Option String)
       (due_lang : String) (assignee_id : Option String),
       (content = none → ¬ hasKey (todoist_update_task_payload content
         description labels priority due_string due_date due_datetime due_lang
         assignee_id) "content") ∧
       (description = none → ¬ hasKey (todoist_update_task_payload content
         description labels priority due_string due_date due_datetime due_lang
         assignee_id) "description") ∧
       (labels = none → ¬ hasKey (todoist_update_task_payload content
         description labels priority due_string due_date due_datetime due_lang
         assignee_id) "labels") ∧
       (priority = none → ¬ hasKey (todoist_update_task_payload content
         description labels priority due_string due_date due_datetime due_lang
         assignee_id) "priority") ∧
       (due_string = none → ¬ hasKey (todoist_update_task_payload content
         description labels priority due_string due_date due_datetime due_lang
         assignee_id) "due_string") ∧
       (due_date = none → ¬ hasKey (todoist_update_task_payload content
         description labels priority due_string due_date due_datetime due_lang
         assignee_id) "due_date") ∧
       (due_datetime = none → ¬ hasKey (todoist_update_task_payload content
         description labels priority due_string due_date due_datetime due_lang
         assignee_id) "due_datetime") ∧
       (assignee_id = none → ¬ hasKey (todoist_update_task_payload content
         description labels priority due_string due_date due_datetime due_lang
         assignee_id) "assignee_id")) ∧
    (∀ (fields : Option (List String)) (filter_by_formula : Option String)
       (max_records page_size : Option Int) (sort : Option (List SortSpec))
       (view offset : Option String),
       (filter_by_formula = none → ¬ hasKey (airtable_list_records_params
         fields filter_by_formula max_records page_size sort view offset)
         "filterByFormula") ∧
       (max_records = none → ¬ hasKey (airtable_list_records_params
         fields filter_by_formula max_records page_size sort view offset)
         "maxRecords") ∧
       (page_size = none → ¬ hasKey (airtable_list_records_params
         fields filter_by_formula max_records page_size sort view offset)
         "pageSize") ∧
       (view = none → ¬ hasKey (airtable_list_records_params
         fields filter_by_formula max_records page_size sort view offset)
         "view") ∧
       (offset = none → ¬ hasKey (airtable_list_records_params
         fields filter_by_formula max_records page_size sort view offset)
         "offset") ∧
       (fields = none → ¬ hasKey (airtable_list_records_params
         fields filter_by_formula max_records page_size sort view offset)
         "fields[]") ∧
       (sort = none → ∀ i : Nat,
         ¬ hasKey (airtable_list_records_params fields filter_by_formula
           max_records page_size sort view offset) (sortFieldKey i) ∧
         ¬ hasKey (airtable_list_records_params fields filter_by_formula
           max_records page_size sort view offset) (sortDirKey i))) := by
  constructor
  · intro content description labels priority due_string due_date due_datetime
      due_lang assignee_id
    refine ⟨?_, ?_, ?_, ?_, ?_, ?_, ?_, ?_⟩ <;>
      (intro h; subst h;
       simp [hasKey, todoist_update_task_payload, mem_dkeys_setIfStr,
         mem_dkeys_setIfInt, mem_dkeys_setIfStrList, strTruthy, intTruthy,
         listTruthy, mem_dkeys_singleton])
  · intro fields filter_by_formula max_records page_size sort view offset
    refine ⟨?_, ?_, ?_, ?_, ?_, ?_, ?_⟩
    · intro h; subst h
      simp only [hasKey]
      rw [mem_dkeys_list_records_params _ _ _ _ _ _ _ _
        (fun r => sortPrefix_ne r "filterByFormula" (by decide))]
      simp [strTruthy]
    · intro h; subst h
      simp only [hasKey]
      rw [mem_dkeys_list_records_params _ _ _ _ _ _ _ _
        (fun r => sortPrefix_ne r "maxRecords" (by decide))]
      simp [intTruthy]
    · intro h; subst h
      simp only [hasKey]
      rw [mem_dkeys_list_records_params _ _ _ _ _ _ _ _
        (fun r => sortPrefix_ne r "pageSize" (by decide))]
      simp [intTruthy]
    · intro h; subst h
      simp only [hasKey]
      rw [mem_dkeys_list_records_params _ _ _ _ _ _ _ _
        (fun r => sortPrefix_ne r "view" (by decide))]
      simp [strTruthy]
    · intro h; subst h
      simp only [hasKey]
      rw [mem_dkeys_list_records_params _ _ _ _ _ _ _ _
        (fun r => sortPrefix_ne r "offset" (by decide))]
      simp [strTruthy]
    · intro h; subst h
      simp only [hasKey]
      rw [mem_dkeys_list_records_params _ _ _ _ _ _ _ _
        (fun r => sortPrefix_ne r "fields[]" (by decide))]
      simp [listTruthy]
    · intro h i
      subst h
      exact ⟨sortshape_key_not_in_list_records_params
          (toString i ++ "][field]") fields filter_by_formula max_records
          page_size view offset,
        sortshape_key_not_in_list_records_params
          (toString i ++ "][direction]") fields filter_by_formula max_records
          page_size view offset⟩

/-- Witness for C1 at concrete inputs: all-unsupplied todoist update_task
payload carries no "priority" key and all-unsupplied list_records query
carries no "view" key. -/
theorem unsupplied_optional_params_absent_witness :
    ¬ hasKey (todoist_update_task_payload none none none none none none none
      "en" none) "priority" ∧
    ¬ hasKey (airtable_list_records_params none none none none none none none)
      "view" :=
  ⟨(unsupplied_optional_params_absent.1 none none none none none none none
      "en" none).2.2.2.1 rfl,
   (unsupplied_optional_params_absent.2 none none none none none none
      none).2.2.2.1 rfl⟩

/-- Claim C10: when list_records is given several field names, each loop
iteration assigns the same "fields[]" query key, so the query holds exactly
one "fields[]" parameter whose value is the last name of the list; the
earlier names are overwritten and never sent. -/
theorem fields_query_key_overwritten_to_last :
    ∀ (fs : List String) (filter_by_formula : Option String)
      (max_records page_size : Option Int) (sort : Option (List SortSpec))
      (view offset : Option String),
      1 < fs.length →
      dget (airtable_list_records_params (some fs) filter_by_formula
          max_records page_size sort view offset) "fields[]" =
        some (JVal.str (fs.getLastD "")) ∧
      (dkeys (airtable_list_records_params (some fs) filter_by_formula
          max_records page_size sort view offset)).count "fields[]" = 1 := by
  intro fs filter_by_formula max_records page_size sort view offset hlen
  obtain ⟨x, xs, rfl⟩ : ∃ x xs, fs = x :: xs := by
    cases fs with
    | nil => simp at hlen
    | cons a l => exact ⟨a, l, rfl⟩
  have hk : ∀ r : String, "sort[" ++ r ≠ "fields[]" :=
    fun r => sortPrefix_ne r "fields[]" (by decide)
  have n1 : ("filterByFormula" : String) ≠ "fields[]" := by decide
  have n2 : ("maxRecords" : String) ≠ "fields[]" := by decide
  have n3 : ("pageSize" : String) ≠ "fields[]" := by decide
  have n4 : ("view" : String) ≠ "fields[]" := by decide
  have n5 : ("offset" : String) ≠ "fields[]" := by decide
  have hfl : listTruthy (some (x :: xs)) = true := by simp [listTruthy]
  simp only [airtable_list_records_params]
  rw [if_pos hfl, Option.getD_some]
  constructor
  · by_cases hs : listTruthy sort = true
    · rw [if_pos hs, dget_sortLoop _ _ _ _ hk,
        dget_setIfStr_ne _ _ _ _ n5, dget_setIfStr_ne _ _ _ _ n4,
        dget_setIfInt_ne _ _ _ _ n3, dget_setIfInt_ne _ _ _ _ n2,
        dget_setIfStr_ne _ _ _ _ n1, dget_fieldsLoop]
    · rw [if_neg hs,
        dget_setIfStr_ne _ _ _ _ n5, dget_setIfStr_ne _ _ _ _ n4,
        dget_setIfInt_ne _ _ _ _ n3, dget_setIfInt_ne _ _ _ _ n2,
        dget_setIfStr_ne _ _ _ _ n1, dget_fieldsLoop]
  · by_cases hs : listTruthy sort = true
    · rw [if_pos hs, count_dkeys_sortLoop _ _ _ _ hk,
        count_dkeys_setIfStr_ne _ _ _ _ n5, count_dkeys_setIfStr_ne _ _ _ _ n4,
        count_dkeys_setIfInt_ne _ _ _ _ n3, count_dkeys_setIfInt_ne _ _ _ _ n2,
        count_dkeys_setIfStr_ne _ _ _ _ n1, dkeys_fieldsLoop_nil_start]
      simp
    · rw [if_neg hs,
        count_dkeys_setIfStr_ne _ _ _ _ n5, count_dkeys_setIfStr_ne _ _ _ _ n4,
        count_dkeys_setIfInt_ne _ _ _ _ n3, count_dkeys_setIfInt_ne _ _ _ _ n2,
        count_dkeys_setIfStr_ne _ _ _ _ n1, dkeys_fieldsLoop_nil_start]
      simp

/-- Witness for C10 at the concrete field list ["Name", "Age"]: only "Age"
is sent, once. -/
theorem fields_query_key_overwritten_to_last_witness :
    dget (airtable_list_records_params (some ["Name", "Age"]) none none none
        none none none) "fields[]" = some (JVal.str "Age") ∧
    (dkeys (airtable_list_records_params (some ["Name", "Age"]) none none none
        none none none)).count "fields[]" = 1 :=
  fields_query_key_overwritten_to_last ["Name", "Age"] none none none none
    none none (by decide)
